import Mathlib

/-!
# Formal model of the realtime presence / fan-out layer (SocketService)

A shallow embedding of `src/common/services/socket.service.ts` (the
connection registry, room router and event fan-out), of the parts of
`src/users/users.service.ts` it calls, and of the `REDIS_CLIENT` factory
and gateway initialization from the common module.

Conventions:
* JavaScript `Map<string, Socket>` becomes an association list
  `List (String × Nat)` keyed by user id; the stored socket is represented
  by its connection id (`Nat`), unique per process.
* Timestamps (`new Date()`) become a `Nat` parameter `now`.
* The external collaborators (JWT verification, the user model) become an
  explicit environment record of oracles.
* Emitted socket frames become explicit `Delivery` values; `disconnect()`
  becomes a recorded boolean effect.
-/

set_option autoImplicit false

namespace TaskMgmt

/-- A value read from the untyped handshake object: the code guards each
read with `typeof x` being the string type, so we distinguish string values from
any other JavaScript value. -/
inductive JsVal where
  | str (s : String)
  | nonString
  deriving DecidableEq, Repr

/-- The handshake data of an incoming socket.io connection: the dedicated
`auth.token` field and the `Authorization`-style header, each possibly
absent and possibly not a string. -/
structure Handshake where
  authToken : Option JsVal
  authorization : Option JsVal
  deriving DecidableEq, Repr

/-- Model of `JwtPayload` from `auth.interface.ts`: `{ email, sub }`. -/
structure JwtPayload where
  email : String
  sub : String
  deriving DecidableEq, Repr

/-- A user document as returned by `UsersService.findById`
(the fields the socket service reads). -/
structure UserDoc where
  id : String
  email : String
  isActive : Bool
  isConfirmed : Bool
  isAdmin : Bool
  deriving DecidableEq, Repr

/-- The principal attached to an authenticated socket
(`AuthenticatedSocket.user` in `socket.interface.ts`). -/
structure Principal where
  id : String
  email : String
  isAdmin : Bool
  deriving DecidableEq, Repr

/-- Per-socket state: the connection id, the optional attached principal
(absent until authentication), and the rooms this socket has joined. -/
structure SocketState where
  connId : Nat
  handshake : Handshake
  user : Option Principal
  rooms : List String
  deriving DecidableEq, Repr

/- ## JavaScript string and truthiness helpers -/

/-- Model of the JavaScript `String.replace` with a string pattern and empty
replacement: it removes the FIRST occurrence of the pattern (not only a prefix):
the list-of-characters worker. -/
def removeFirstOccAux (pat : List Char) : List Char → List Char
  | [] => []
  | c :: rest =>
    if pat.isPrefixOf (c :: rest) then (c :: rest).drop pat.length
    else c :: removeFirstOccAux pat rest

/-- Model of `s.replace(pat, emptyString)` for JavaScript string patterns: removes the first
occurrence of `pat` from `s` (identity when `pat` does not occur). -/
def removeFirstOcc (pat s : String) : String :=
  ⟨removeFirstOccAux pat.data s.data⟩

/-- JavaScript `a || b` on `string | undefined` values: the empty string is
falsy, so `"" || b` evaluates to `b`. -/
def jsOrString (a b : Option String) : Option String :=
  match a with
  | some s => if s = "" then b else some s
  | none => b

/-- JavaScript truthiness of a `string | undefined` value (`!token`
is true exactly when the token is `undefined` or `""`). -/
def jsTruthy : Option String → Bool
  | some s => s ≠ ""
  | none => false

/- ## Handshake token extraction (`handleConnection`, lines 53-66) -/

/-- Model of `authToken`: the dedicated `handshake.auth.token` field, accepted only
when it is a string. -/
def authTokenOf (h : Handshake) : Option String :=
  match h.authToken with
  | some (JsVal.str s) => some s
  | _ => none

/-- Model of `headerToken`: the `handshake.headers.authorization` field, accepted
only when it is a string, with the `Bearer ` pattern removed at its first occurrence
(JavaScript `authorization.replace` with empty replacement). -/
def headerTokenOf (h : Handshake) : Option String :=
  match h.authorization with
  | some (JsVal.str s) => some (removeFirstOcc "Bearer " s)
  | _ => none

/-- Model of `const token = authToken || headerToken`. -/
def extractToken (h : Handshake) : Option String :=
  jsOrString (authTokenOf h) (headerTokenOf h)

/- ## The connected-user index (`Map<string, AuthenticatedSocket>`) -/

/-- The `connectedUsers` map: user id → connection id, in insertion order
(a JavaScript `Map`). -/
def Registry : Type := List (String × Nat)

instance : DecidableEq Registry := by
  unfold Registry
  infer_instance

instance : Repr Registry := by
  unfold Registry
  infer_instance

instance : Append Registry := ⟨fun a b => List.append a b⟩

/-- Model of `Map.get`: the value stored for a key, if any. -/
def mapGet (k : String) : Registry → Option Nat
  | [] => none
  | (k', v) :: rest => if k' = k then some v else mapGet k rest

/-- Model of `Map.has`. -/
def mapHas (k : String) (m : Registry) : Bool :=
  (mapGet k m).isSome

/-- Model of `Map.set`: overwrites in place when the key exists (keeping insertion
order), otherwise appends. -/
def mapSet (k : String) (v : Nat) : Registry → Registry
  | [] => [(k, v)]
  | (k', v') :: rest =>
    if k' = k then (k, v) :: rest else (k', v') :: mapSet k v rest

/-- Model of `Map.delete`. -/
def mapDelete (k : String) : Registry → Registry
  | [] => []
  | (k', v') :: rest =>
    if k' = k then rest else (k', v') :: mapDelete k rest

/-- Model of `Array.from(map.keys())`. -/
def mapKeys (m : Registry) : List String :=
  m.map Prod.fst

/-- Model of `Map.size`. -/
def mapSize (m : Registry) : Nat :=
  m.length

/- ## DTOs (payload shapes from `socket.interface.ts` and the dto files) -/

/-- Model of `TaskStatus` from `task.schema.ts`. -/
inductive TaskStatus where
  | pending
  | inProgress
  | completed
  | blocked
  deriving DecidableEq, Repr

/-- Model of `TaskDto` from `task.dto.ts` (dates as `Nat` timestamps). -/
structure TaskDto where
  id : String
  title : String
  description : Option String
  createdBy : String
  assignedTo : Option String
  projectId : String
  status : TaskStatus
  dueDate : Option Nat
  priority : Nat
  createdAt : Nat
  updatedAt : Nat
  deriving DecidableEq, Repr

/-- Model of `ProjectDto` from `project.dto.ts`. -/
structure ProjectDto where
  id : String
  name : String
  description : Option String
  createdBy : String
  members : List String
  isActive : Bool
  createdAt : Nat
  updatedAt : Nat
  deriving DecidableEq, Repr

/-- Model of `CommentDto` from `comment.dto.ts`. -/
structure CommentDto where
  id : String
  content : String
  author : String
  taskId : String
  projectId : String
  createdAt : Nat
  updatedAt : Nat
  deriving DecidableEq, Repr

/-- Model of `UserPresenceDto` from `socket.interface.ts`. -/
structure UserPresenceDto where
  userId : String
  email : String
  isOnline : Bool
  lastSeen : Option Nat
  deriving DecidableEq, Repr

/-- Model of `NotificationDto` from `socket.interface.ts`. -/
structure NotificationDto where
  id : String
  ntype : String
  title : String
  message : String
  userId : String
  read : Bool
  createdAt : Nat
  deriving DecidableEq, Repr

/-- The payload of an emitted frame (one alternative per payload type in
`ServerToClientEvents`). -/
inductive EventPayload where
  | task (t : TaskDto)
  | project (p : ProjectDto)
  | comment (c : CommentDto)
  | presence (p : UserPresenceDto)
  | plainId (s : String)
  | notice (n : NotificationDto)
  deriving DecidableEq, Repr

/-- A frame delivered to one socket: target connection id, wire-level
event name, payload. -/
structure Delivery where
  target : Nat
  event : String
  payload : EventPayload
  deriving DecidableEq, Repr

/-- Model of `client.broadcast.emit(ev, p)`: delivers to every currently connected
socket except the sender. `conns` lists the connection ids of all sockets
currently connected to this server. -/
def broadcastFrom (self : Nat) (conns : List Nat) (ev : String)
    (p : EventPayload) : List Delivery :=
  (conns.filter (fun c => c ≠ self)).map (fun c => ⟨c, ev, p⟩)

/-- Model of `server.to(room).emit(ev, p)`: delivers to every socket that is
currently a member of `room`. -/
def emitToRoom (socks : List SocketState) (room : String) (ev : String)
    (p : EventPayload) : List Delivery :=
  (socks.filter (fun s => room ∈ s.rooms)).map (fun s => ⟨s.connId, ev, p⟩)

/- ## External collaborators -/

/-- The oracles for the external collaborators of a connection attempt:
`jwtService.verify` (`none` = verification throws), `usersService.findById`
(`Except.error` = the lookup rejects, e.g. `NotFoundException` for a
missing user), and whether `usersService.updateLastSeen` resolves
(`false` = the returned promise rejects). -/
structure Env where
  verify : String → Option JwtPayload
  findById : String → Except String UserDoc
  lastSeenOk : Bool

/- ## Connection lifecycle (`handleConnection` / `handleDisconnect`) -/

/-- The observable outcome of `handleConnection`: the registry afterwards,
the (possibly promoted) socket, the frames broadcast to other sockets, the
frames emitted to the connecting socket itself, and whether
`client.disconnect()` was called. -/
structure ConnectResult where
  registry : Registry
  client : SocketState
  deliveries : List Delivery
  toClient : List Delivery
  disconnected : Bool
  deriving DecidableEq, Repr

/-- Model of `handleConnection` (socket.service.ts lines 52-143), translated
branch by branch:
token extraction (`authToken || headerToken`), the `if (!token)` rejection,
`jwtService.verify` under its own try/catch, then the try block with
`findById` (whose rejection — `NotFoundException` for a missing user, or any
other error — lands in the outer catch, which disconnects), the
`isActive` / `isConfirmed` gates, principal attachment, `connectedUsers.set`,
the awaited `updateLastSeen` (whose rejection also lands in the outer
catch: broadcast skipped, socket disconnected, the just-inserted registry
entry left in place), and finally the `user.online` broadcast via `client.broadcast.emit`.
`findById` never resolves with a null user (it throws `NotFoundException`
instead), so the `if (!user)` branch of the source is unreachable and both it
and the catch produce the same observable outcome. -/
def handleConnection (env : Env) (now : Nat) (conns : List Nat)
    (st : Registry) (client : SocketState) : ConnectResult :=
  match extractToken client.handshake with
  | none => ⟨st, client, [], [], true⟩
  | some t =>
    if t = "" then ⟨st, client, [], [], true⟩
    else
      match env.verify t with
      | none => ⟨st, client, [], [], true⟩
      | some payload =>
        match env.findById payload.sub with
        | Except.error _ => ⟨st, client, [], [], true⟩
        | Except.ok user =>
          if user.isActive = false then ⟨st, client, [], [], true⟩
          else if user.isConfirmed = false then ⟨st, client, [], [], true⟩
          else
            let client' : SocketState :=
              { client with user := some ⟨user.id, user.email, user.isAdmin⟩ }
            let st' := mapSet user.id client.connId st
            if env.lastSeenOk then
              ⟨st', client',
               broadcastFrom client.connId conns "user.online"
                 (EventPayload.presence ⟨user.id, user.email, true, some now⟩),
               [], false⟩
            else
              ⟨st', client', [], [], true⟩

/-- The observable outcome of `handleDisconnect`: the registry afterwards,
the frames broadcast to other sockets, and whether the handler ran to
completion (`false` = the awaited `updateLastSeen` rejected, so the
rejection propagated before the `user.offline` broadcast). -/
structure DisconnectResult where
  registry : Registry
  deliveries : List Delivery
  completed : Bool
  deriving DecidableEq, Repr

/-- Model of `handleDisconnect` (socket.service.ts lines 145-159): no-op when the
socket carries no principal; otherwise `connectedUsers.delete(userId)`
(unconditionally — the stored connection id is not compared with the
closing socket), then the awaited `updateLastSeen`, then
the `user.offline` broadcast via `client.broadcast.emit`. -/
def handleDisconnect (env : Env) (conns : List Nat)
    (st : Registry) (client : SocketState) : DisconnectResult :=
  match client.user with
  | none => ⟨st, [], true⟩
  | some u =>
    let st' := mapDelete u.id st
    if env.lastSeenOk then
      ⟨st',
       broadcastFrom client.connId conns "user.offline"
         (EventPayload.plainId u.id),
       true⟩
    else
      ⟨st', [], false⟩

/- ## Room router (`handleJoinProject` etc.) -/

/-- Model of `socket.join(room)`: idempotent insertion into the room set of the socket. -/
def roomJoin (rooms : List String) (room : String) : List String :=
  if room ∈ rooms then rooms else rooms ++ [room]

/-- Model of `socket.leave(room)`: removal, a no-op when not a member. -/
def roomLeave (rooms : List String) (room : String) : List String :=
  rooms.filter (fun r => r ≠ room)

/-- Model of `handleJoinProject` (lines 161-168): joins `` `project:${projectId}` ``
unconditionally — there is no principal check — and then logs
`client.user.email`. The boolean records whether that log line executes
without throwing: it is `false` exactly when no principal is attached
(reading `.email` of `undefined` throws), and the throw happens only
AFTER the join has taken effect. -/
def handleJoinProject (client : SocketState) (projectId : String) :
    SocketState × Bool :=
  ({ client with rooms := roomJoin client.rooms ("project:" ++ projectId) },
   client.user.isSome)

/-- Model of `handleLeaveProject` (lines 170-177). -/
def handleLeaveProject (client : SocketState) (projectId : String) :
    SocketState × Bool :=
  ({ client with rooms := roomLeave client.rooms ("project:" ++ projectId) },
   client.user.isSome)

/-- Model of `handleJoinTask` (lines 179-183): same shape on `` `task:${taskId}` ``. -/
def handleJoinTask (client : SocketState) (taskId : String) :
    SocketState × Bool :=
  ({ client with rooms := roomJoin client.rooms ("task:" ++ taskId) },
   client.user.isSome)

/-- Model of `handleLeaveTask` (lines 185-189). -/
def handleLeaveTask (client : SocketState) (taskId : String) :
    SocketState × Bool :=
  ({ client with rooms := roomLeave client.rooms ("task:" ++ taskId) },
   client.user.isSome)

/- ## Per-user event fan-out (lines 192-239) -/

/-- Model of `emitTaskCreated`: `connectedUsers.get(userId)`; emit to that socket
when present, otherwise do nothing. Returns the (unchanged) registry and
the frames delivered. -/
def emitTaskCreated (st : Registry) (userId : String) (task : TaskDto) :
    Registry × List Delivery :=
  match mapGet userId st with
  | some c => (st, [⟨c, "task.created", EventPayload.task task⟩])
  | none => (st, [])

/-- Model of `emitTaskUpdated`. -/
def emitTaskUpdated (st : Registry) (userId : String) (task : TaskDto) :
    Registry × List Delivery :=
  match mapGet userId st with
  | some c => (st, [⟨c, "task.updated", EventPayload.task task⟩])
  | none => (st, [])

/-- Model of `emitTaskDeleted`. -/
def emitTaskDeleted (st : Registry) (userId : String) (taskId : String) :
    Registry × List Delivery :=
  match mapGet userId st with
  | some c => (st, [⟨c, "task.deleted", EventPayload.plainId taskId⟩])
  | none => (st, [])

/-- Model of `emitProjectUpdated`. -/
def emitProjectUpdated (st : Registry) (userId : String) (p : ProjectDto) :
    Registry × List Delivery :=
  match mapGet userId st with
  | some c => (st, [⟨c, "project.updated", EventPayload.project p⟩])
  | none => (st, [])

/-- Model of `emitCommentCreated`. -/
def emitCommentCreated (st : Registry) (userId : String) (c0 : CommentDto) :
    Registry × List Delivery :=
  match mapGet userId st with
  | some c => (st, [⟨c, "comment.created", EventPayload.comment c0⟩])
  | none => (st, [])

/-- Model of `emitUserOnline`. -/
def emitUserOnline (st : Registry) (userId : String) (p : UserPresenceDto) :
    Registry × List Delivery :=
  match mapGet userId st with
  | some c => (st, [⟨c, "user.online", EventPayload.presence p⟩])
  | none => (st, [])

/-- Model of `emitNotification`. -/
def emitNotification (st : Registry) (userId : String) (n : NotificationDto) :
    Registry × List Delivery :=
  match mapGet userId st with
  | some c => (st, [⟨c, "notification", EventPayload.notice n⟩])
  | none => (st, [])

/-- One user-targeted emission request: which of the seven per-user emit
methods is called, with its payload. -/
inductive UserEvent where
  | taskCreated (t : TaskDto)
  | taskUpdated (t : TaskDto)
  | taskDeleted (taskId : String)
  | projectUpdated (p : ProjectDto)
  | commentCreated (c : CommentDto)
  | userOnline (p : UserPresenceDto)
  | note (n : NotificationDto)
  deriving DecidableEq, Repr

/-- The wire-level event name each request uses. -/
def UserEvent.wireName : UserEvent → String
  | .taskCreated _ => "task.created"
  | .taskUpdated _ => "task.updated"
  | .taskDeleted _ => "task.deleted"
  | .projectUpdated _ => "project.updated"
  | .commentCreated _ => "comment.created"
  | .userOnline _ => "user.online"
  | .note _ => "notification"

/-- The payload each request carries. -/
def UserEvent.content : UserEvent → EventPayload
  | .taskCreated t => EventPayload.task t
  | .taskUpdated t => EventPayload.task t
  | .taskDeleted s => EventPayload.plainId s
  | .projectUpdated p => EventPayload.project p
  | .commentCreated c => EventPayload.comment c
  | .userOnline p => EventPayload.presence p
  | .note n => EventPayload.notice n

/-- Dispatcher over the seven per-user emit methods (each branch is the
corresponding source method). -/
def emitToUser (st : Registry) (userId : String) :
    UserEvent → Registry × List Delivery
  | .taskCreated t => emitTaskCreated st userId t
  | .taskUpdated t => emitTaskUpdated st userId t
  | .taskDeleted s => emitTaskDeleted st userId s
  | .projectUpdated p => emitProjectUpdated st userId p
  | .commentCreated c => emitCommentCreated st userId c
  | .userOnline p => emitUserOnline st userId p
  | .note n => emitNotification st userId n

/- ## Room-based fan-out (lines 242-289) -/

/-- Model of `emitTaskCreatedToProject`:
emits `task.created` to room `project:` + projectId via `server.to`. -/
def emitTaskCreatedToProject (socks : List SocketState) (projectId : String)
    (task : TaskDto) : List Delivery :=
  emitToRoom socks ("project:" ++ projectId) "task.created"
    (EventPayload.task task)

/-- Model of `emitTaskUpdatedToProject`. -/
def emitTaskUpdatedToProject (socks : List SocketState) (projectId : String)
    (task : TaskDto) : List Delivery :=
  emitToRoom socks ("project:" ++ projectId) "task.updated"
    (EventPayload.task task)

/-- Model of `emitTaskUpdatedToTask`:
emits `task.updated` to room `task:` + taskId via `server.to`. -/
def emitTaskUpdatedToTask (socks : List SocketState) (taskId : String)
    (task : TaskDto) : List Delivery :=
  emitToRoom socks ("task:" ++ taskId) "task.updated"
    (EventPayload.task task)

/- ## Presence reads (lines 300-310) -/

/-- Model of `isUserOnline(userId)`: `connectedUsers.has(userId)`. -/
def isUserOnline (st : Registry) (userId : String) : Bool :=
  mapHas userId st

/-- Model of `getConnectedUsers()`: `Array.from(connectedUsers.keys())`. -/
def getConnectedUsers (st : Registry) : List String :=
  mapKeys st

/-- Model of `getConnectedUserCount()`: `connectedUsers.size`. -/
def getConnectedUserCount (st : Registry) : Nat :=
  mapSize st

/- ## Backbone adapter boot (common module `REDIS_CLIENT` factory +
`afterInit`) -/

/-- The options the factory passes to `new Redis({...})`. -/
structure RedisConfig where
  host : String
  port : Nat
  password : Option String
  deriving DecidableEq, Repr

/-- Lifecycle events of the Redis client that the listeners installed by the factory
turn into console logs. -/
inductive RedisLog where
  | connecting
  | ready
  | connectionError (msg : String)
  deriving DecidableEq, Repr

/-- A constructed ioredis client; `busReachable` records whether the
shared bus can actually be reached from this process. -/
structure RedisClientModel where
  cfg : RedisConfig
  busReachable : Bool
  deriving DecidableEq, Repr

/-- The `REDIS_CLIENT` `useFactory` (common module, lines 98-119):
`new Redis({...})` returns a client object unconditionally — connecting
happens asynchronously in the background, and an unreachable bus surfaces
only through the registered error listener, which logs the message.
The factory has no failure path and never throws. -/
def redisClientFactory (cfg : RedisConfig) (busReachable : Bool) :
    RedisClientModel × List RedisLog :=
  (⟨cfg, busReachable⟩,
   if busReachable then [RedisLog.connecting, RedisLog.ready]
   else [RedisLog.connecting,
         RedisLog.connectionError "connect ECONNREFUSED"])

/-- Model of `redis.duplicate()`: a new client created with the same options (it
reaches the bus exactly when the original does). -/
def redisDuplicate (c : RedisClientModel) : RedisClientModel :=
  c

/-- The installed gateway state after `afterInit`. -/
structure GatewayInit where
  pubClient : RedisClientModel
  subClient : RedisClientModel
  adapterInstalled : Bool
  deriving DecidableEq, Repr

/-- Model of `afterInit` (socket.service.ts lines 45-50): duplicates the injected
client twice, installs `createAdapter(pubClient, subClient)` and logs.
It performs no connectivity check, awaits nothing and has no failure
path, so it is modelled in `Except` with no error-producing branch. -/
def afterInit (c : RedisClientModel) : Except String GatewayInit :=
  Except.ok ⟨redisDuplicate c, redisDuplicate c, true⟩

/-- Process boot as far as the backbone adapter is concerned: run the
`REDIS_CLIENT` factory, then `afterInit` on the gateway; an
`Except.error` outcome would mean boot is aborted. -/
def bootGateway (cfg : RedisConfig) (busReachable : Bool) :
    Except String (GatewayInit × List RedisLog) :=
  match redisClientFactory cfg busReachable with
  | (client, logs) => (afterInit client).map (fun g => (g, logs))

/-- The two supported room kinds of the room key format `kind:entityId`. -/
inductive RoomKind where
  | project
  | task
  deriving DecidableEq, Repr

/-- Room-name composition `"<kind>:" + entityId`, as used by the join
handlers and the room-based emit methods. -/
def roomName : RoomKind → String → String
  | RoomKind.project, entityId => "project:" ++ entityId
  | RoomKind.task, entityId => "task:" ++ entityId

/- ## Derived predicates over the embedding -/

/-- A JavaScript `Map` state is well formed when its keys are pairwise
distinct (guaranteed by `Map` semantics; `mapSet` preserves it). -/
def RegistryWF (st : Registry) : Prop :=
  (mapKeys st).Nodup

/-- The connection attempt fails one of the five authentication gates:
no (truthy) token, failed verification, rejected user lookup (missing
user), inactive user, unconfirmed user. -/
def AuthRejected (env : Env) (h : Handshake) : Prop :=
  (extractToken h = none ∨ extractToken h = some "") ∨
  (∃ t, extractToken h = some t ∧ t ≠ "" ∧ env.verify t = none) ∨
  (∃ t p e, extractToken h = some t ∧ t ≠ "" ∧ env.verify t = some p ∧
    env.findById p.sub = Except.error e) ∨
  (∃ t p user, extractToken h = some t ∧ t ≠ "" ∧ env.verify t = some p ∧
    env.findById p.sub = Except.ok user ∧ user.isActive = false) ∨
  (∃ t p user, extractToken h = some t ∧ t ≠ "" ∧ env.verify t = some p ∧
    env.findById p.sub = Except.ok user ∧ user.isActive = true ∧
    user.isConfirmed = false)

/-- The connection attempt passes all five authentication gates and
resolves `user`. -/
def AuthAccepted (env : Env) (h : Handshake) (user : UserDoc) : Prop :=
  ∃ t p, extractToken h = some t ∧ t ≠ "" ∧ env.verify t = some p ∧
    env.findById p.sub = Except.ok user ∧ user.isActive = true ∧
    user.isConfirmed = true

/- ## Shared concrete fixtures -/

/-- A confirmed, active user for concrete scenarios. -/
def userU1 : UserDoc := ⟨"u1", "u1@example.com", true, true, false⟩

/-- Oracles under which tokens `tokA` and `tokB` both authenticate `u1`,
the directory knows exactly `u1`, and last-seen writes succeed. -/
def envU1 : Env :=
  ⟨fun t =>
     if t = "tokA" then some ⟨"u1@example.com", "u1"⟩
     else if t = "tokB" then some ⟨"u1@example.com", "u1"⟩
     else none,
   fun s => if s = "u1" then Except.ok userU1 else Except.error "NotFound",
   true⟩

/-- Same oracles, but `updateLastSeen` rejects. -/
def envU1Fail : Env :=
  ⟨envU1.verify, envU1.findById, false⟩

/-- Handshake carrying `tokA` in `auth.token`. -/
def hsA : Handshake := ⟨some (JsVal.str "tokA"), none⟩

/-- Handshake carrying `tokB` in `auth.token`. -/
def hsB : Handshake := ⟨some (JsVal.str "tokB"), none⟩

/-- Handshake with neither credential field. -/
def hsNone : Handshake := ⟨none, none⟩

/-- Fresh (unauthenticated) socket for connection 1 presenting `tokA`. -/
def clientA : SocketState := ⟨1, hsA, none, []⟩

/-- Fresh (unauthenticated) socket for connection 2 presenting `tokB`. -/
def clientB : SocketState := ⟨2, hsB, none, []⟩

/-- Socket 1 after authenticating as `u1` (principal attached). -/
def authedA : SocketState :=
  ⟨1, hsA, some ⟨"u1", "u1@example.com", false⟩, []⟩

/-- A concrete task payload for scenarios. -/
def t0 : TaskDto :=
  ⟨"t1", "Title", none, "u1", none, "p1", TaskStatus.pending, none, 1, 0, 0⟩

/- ## Helper lemmas -/

theorem mapGet_isSome_iff_mem_keys (k : String) (m : Registry) :
    (mapGet k m).isSome = true ↔ k ∈ mapKeys m := by
  induction m with
  | nil => simp [mapGet, mapKeys]
  | cons hd tl ih =>
    obtain ⟨k', v⟩ := hd
    by_cases h : k' = k
    · subst h
      simp [mapGet, mapKeys]
    · simp only [mapGet, mapKeys, List.map_cons, List.mem_cons, if_neg h]
      rw [ih]
      constructor
      · exact fun hm => Or.inr hm
      · rintro (hm | hm)
        · exact absurd hm.symm h
        · exact hm

theorem mapGet_mapDelete_self (k : String) (m : Registry)
    (hwf : RegistryWF m) : mapGet k (mapDelete k m) = none := by
  induction m with
  | nil => simp [mapDelete, mapGet]
  | cons hd tl ih =>
    obtain ⟨k', v⟩ := hd
    have hwf' : RegistryWF tl := (List.nodup_cons.mp hwf).2
    by_cases h : k' = k
    · subst h
      simp only [mapDelete, if_pos rfl]
      have hnot : k' ∉ mapKeys tl := (List.nodup_cons.mp hwf).1
      cases hget : mapGet k' tl with
      | none => exact hget
      | some c =>
        exact absurd (mapGet_isSome_iff_mem_keys k' tl |>.mp (by simp [hget]))
          hnot
    · simp only [mapDelete, if_neg h, mapGet, if_neg h]
      exact ih hwf'

theorem mem_broadcastFrom (self : Nat) (conns : List Nat) (ev : String)
    (p : EventPayload) (d : Delivery) :
    d ∈ broadcastFrom self conns ev p ↔
      (d.target ∈ conns ∧ d.target ≠ self ∧ d.event = ev ∧ d.payload = p) := by
  simp only [broadcastFrom, List.mem_map, List.mem_filter,
    decide_eq_true_eq]
  constructor
  · rintro ⟨c, ⟨hc, hne⟩, rfl⟩
    exact ⟨hc, hne, rfl, rfl⟩
  · rintro ⟨ht, hne, he, hp⟩
    refine ⟨d.target, ⟨ht, hne⟩, ?_⟩
    cases d
    simp_all

theorem mem_emitToRoom (socks : List SocketState) (room ev : String)
    (p : EventPayload) (d : Delivery) :
    d ∈ emitToRoom socks room ev p ↔
      ∃ s, s ∈ socks ∧ room ∈ s.rooms ∧ d = ⟨s.connId, ev, p⟩ := by
  simp only [emitToRoom, List.mem_map, List.mem_filter, decide_eq_true_eq]
  constructor
  · rintro ⟨s, ⟨hs, hr⟩, rfl⟩
    exact ⟨s, hs, hr, rfl⟩
  · rintro ⟨s, hs, hr, rfl⟩
    exact ⟨s, ⟨hs, hr⟩, rfl⟩

theorem mem_roomJoin_self (rooms : List String) (room : String) :
    room ∈ roomJoin rooms room := by
  unfold roomJoin
  by_cases h : room ∈ rooms
  · simp [h]
  · simp [h]

theorem isPrefixOf_append_self (l1 l2 : List Char) :
    l1.isPrefixOf (l1 ++ l2) = true := by
  induction l1 with
  | nil => simp [List.isPrefixOf]
  | cons c cs ih => simp [List.isPrefixOf, ih]

theorem removeFirstOccAux_strip (c : Char) (p l : List Char) :
    removeFirstOccAux (c :: p) ((c :: p) ++ l) = l := by
  rw [show (c :: p) ++ l = c :: (p ++ l) from rfl]
  unfold removeFirstOccAux
  rw [if_pos]
  · rw [show c :: (p ++ l) = (c :: p) ++ l from rfl]
    exact List.drop_left _ _
  · rw [show c :: (p ++ l) = (c :: p) ++ l from rfl]
    exact isPrefixOf_append_self _ _

theorem removeFirstOcc_bearer_strip (rest : String) :
    removeFirstOcc "Bearer " ("Bearer " ++ rest) = rest := by
  unfold removeFirstOcc
  have hd : ("Bearer " ++ rest).data =
      ('B' :: "earer ".data) ++ rest.data := by
    rw [String.data_append]
  rw [hd, show "Bearer ".data = 'B' :: "earer ".data from rfl,
    removeFirstOccAux_strip]

theorem string_append_left_cancel {s a b : String}
    (h : s ++ a = s ++ b) : a = b := by
  have hd := congrArg String.data h
  rw [String.data_append, String.data_append] at hd
  exact String.ext (List.append_cancel_left hd)

theorem project_room_ne_task_room (a b : String) :
    "project:" ++ a ≠ "task:" ++ b := by
  intro h
  have hd := congrArg String.data h
  rw [String.data_append, String.data_append] at hd
  rw [show "project:".data = 'p' :: "roject:".data from rfl,
    show "task:".data = 't' :: "ask:".data from rfl,
    List.cons_append, List.cons_append] at hd
  exact absurd (List.head_eq_of_cons_eq hd) (by decide)

theorem roomName_inj (k1 k2 : RoomKind) (a b : String)
    (h : roomName k1 a = roomName k2 b) : k1 = k2 ∧ a = b := by
  cases k1 <;> cases k2 <;> simp only [roomName] at h
  · exact ⟨rfl, string_append_left_cancel h⟩
  · exact absurd h (project_room_ne_task_room a b)
  · exact absurd h.symm (project_room_ne_task_room b a)
  · exact ⟨rfl, string_append_left_cancel h⟩

/- ## Claim theorems -/

/-- C10: the three presence reads are mutually consistent pure reads of
the same registry state: `isUserOnline u` is `true` exactly when `u` is in
the list returned by `getConnectedUsers`, and `getConnectedUserCount`
equals the length of that list. (All three are embedded as pure functions
of the registry — none touches the state, matching the read-only source
bodies `has`/`keys`/`size`.) -/
theorem presence_reads_consistent (st : Registry) (u : String) :
    (isUserOnline st u = true ↔ u ∈ getConnectedUsers st) ∧
    getConnectedUserCount st = (getConnectedUsers st).length := by
  constructor
  · exact mapGet_isSome_iff_mem_keys u st
  · simp [getConnectedUserCount, getConnectedUsers, mapSize, mapKeys]

/-- C10 witness: on the registry `[("u1", 1)]`, `isUserOnline` agrees with
membership in `getConnectedUsers` and the count equals the list length. -/
theorem presence_reads_consistent_witness :
    ("u1" ∈ getConnectedUsers [("u1", 1)] ∧
      isUserOnline [("u1", 1)] "u1" = true) ∧
    getConnectedUserCount [("u1", 1)] =
      (getConnectedUsers [("u1", 1)]).length :=
  ⟨⟨(presence_reads_consistent [("u1", 1)] "u1").1.mp (by decide),
    by decide⟩,
   (presence_reads_consistent [("u1", 1)] "u1").2⟩

/-- C7: every per-user emission (all seven event kinds) is a pure lookup:
when the user id is absent from the index, the call returns normally with
the registry unchanged and no delivery; when present, it delivers exactly
one frame, to exactly the stored connection, with the wire name of that kind
and payload — again leaving the registry unchanged. -/
theorem emitToUser_lookup_spec (st : Registry) (uid : String)
    (e : UserEvent) :
    (mapGet uid st = none → emitToUser st uid e = (st, [])) ∧
    (∀ c, mapGet uid st = some c →
      emitToUser st uid e = (st, [⟨c, e.wireName, e.content⟩])) := by
  constructor
  · intro h
    cases e <;>
      simp [emitToUser, emitTaskCreated, emitTaskUpdated, emitTaskDeleted,
        emitProjectUpdated, emitCommentCreated, emitUserOnline,
        emitNotification, h]
  · intro c h
    cases e <;>
      simp [emitToUser, emitTaskCreated, emitTaskUpdated, emitTaskDeleted,
        emitProjectUpdated, emitCommentCreated, emitUserOnline,
        emitNotification, UserEvent.wireName, UserEvent.content, h]

/-- C7 witness: on the empty registry an emission to `"ghost"` delivers
nothing and changes nothing; on `[("u1", 7)]` an emission to `"u1"`
delivers exactly one frame to connection 7. -/
theorem emitToUser_lookup_spec_witness :
    emitToUser ([] : Registry) "ghost" (UserEvent.taskDeleted "t1") =
      (([] : Registry), []) ∧
    emitToUser [("u1", 7)] "u1" (UserEvent.taskDeleted "t1") =
      ([("u1", 7)],
       [⟨7, "task.deleted", EventPayload.plainId "t1"⟩]) :=
  ⟨(emitToUser_lookup_spec [] "ghost" (UserEvent.taskDeleted "t1")).1 rfl,
   (emitToUser_lookup_spec [("u1", 7)] "u1"
      (UserEvent.taskDeleted "t1")).2 7 rfl⟩

/-- C5: authentication fails closed. In each of the five failure modes
(token absent/empty, verification failure, rejected user lookup, inactive
user, unconfirmed user) `handleConnection` disconnects the socket, sends
no frame to the client (`toClient = []`), broadcasts nothing, attaches no
principal, and leaves the registry untouched — so the user is never
inserted into the connected-user index and never appears in the
presence reads. -/
theorem auth_fails_closed (env : Env) (now : Nat) (conns : List Nat)
    (st : Registry) (client : SocketState)
    (h : AuthRejected env client.handshake) :
    handleConnection env now conns st client = ⟨st, client, [], [], true⟩ := by
  rcases h with (h0 | h0) | ⟨t, ht, htne, hv⟩ | ⟨t, p, e, ht, htne, hv, hf⟩ |
    ⟨t, p, user, ht, htne, hv, hf, hact⟩ |
    ⟨t, p, user, ht, htne, hv, hf, hact, hconf⟩
  · simp [handleConnection, h0]
  · simp [handleConnection, h0]
  · simp [handleConnection, ht, htne, hv]
  · simp [handleConnection, ht, htne, hv, hf]
  · simp [handleConnection, ht, htne, hv, hf, hact]
  · simp [handleConnection, ht, htne, hv, hf, hact, hconf]

/-- C5 witness: a connection presenting no credential at all (under the
`envU1` oracles) is rejected with no state change, no frames and an
immediate disconnect. -/
theorem auth_fails_closed_witness :
    AuthRejected envU1 hsNone ∧
    handleConnection envU1 0 [2, 3] [("u9", 9)] ⟨4, hsNone, none, []⟩ =
      ⟨[("u9", 9)], ⟨4, hsNone, none, []⟩, [], [], true⟩ :=
  ⟨Or.inl (Or.inl rfl),
   auth_fails_closed envU1 0 [2, 3] [("u9", 9)] ⟨4, hsNone, none, []⟩
     (Or.inl (Or.inl rfl))⟩

/-- C8: on a successful authentication the `user.online` presence event —
payload `{userId, email, isOnline := true, lastSeen := now}` — is
delivered exactly to the other currently connected sockets, never to the
newly connected one; symmetrically, on deregistration of an authenticated
socket the `user.offline` event carrying the bare user id goes to every
other connected socket and not to the closing one. -/
theorem presence_broadcast_excludes_self (env : Env) (now : Nat)
    (conns : List Nat) (st : Registry) (client : SocketState)
    (user : UserDoc) (hacc : AuthAccepted env client.handshake user)
    (hok : env.lastSeenOk = true) :
    (∀ d, d ∈ (handleConnection env now conns st client).deliveries ↔
      (d.target ∈ conns ∧ d.target ≠ client.connId ∧
       d.event = "user.online" ∧
       d.payload = EventPayload.presence
         ⟨user.id, user.email, true, some now⟩)) ∧
    (∀ (conns2 : List Nat) (st2 : Registry) (c2 : SocketState)
       (u2 : Principal), c2.user = some u2 →
      ∀ d, d ∈ (handleDisconnect env conns2 st2 c2).deliveries ↔
        (d.target ∈ conns2 ∧ d.target ≠ c2.connId ∧
         d.event = "user.offline" ∧
         d.payload = EventPayload.plainId u2.id)) := by
  obtain ⟨t, p, ht, htne, hv, hf, hact, hconf⟩ := hacc
  constructor
  · intro d
    simp only [handleConnection, ht, htne, hv, hf, hact, hconf, hok,
      Bool.true_eq_false, if_neg, if_false, ite_true, if_true]
    exact mem_broadcastFrom client.connId conns "user.online" _ d
  · intro conns2 st2 c2 u2 hu d
    simp only [handleDisconnect, hu]
    rw [if_pos hok]
    exact mem_broadcastFrom c2.connId conns2 "user.offline" _ d

/-- C8 witness: with sockets 7 and 1 connected and socket 1 (user `u1`)
authenticating, the online event reaches socket 7 and not socket 1; the
offline event on the disconnect of socket 1 likewise reaches only socket 7. -/
theorem presence_broadcast_excludes_self_witness :
    ((⟨7, "user.online",
        EventPayload.presence
          ⟨"u1", "u1@example.com", true, some 5⟩⟩ : Delivery) ∈
      (handleConnection envU1 5 [7, 1] [] clientA).deliveries) ∧
    (¬ (⟨1, "user.online",
        EventPayload.presence
          ⟨"u1", "u1@example.com", true, some 5⟩⟩ : Delivery) ∈
      (handleConnection envU1 5 [7, 1] [] clientA).deliveries) ∧
    ((⟨7, "user.offline", EventPayload.plainId "u1"⟩ : Delivery) ∈
      (handleDisconnect envU1 [7, 1] [("u1", 1)] authedA).deliveries) ∧
    (¬ (⟨1, "user.offline", EventPayload.plainId "u1"⟩ : Delivery) ∈
      (handleDisconnect envU1 [7, 1] [("u1", 1)] authedA).deliveries) := by
  have h := presence_broadcast_excludes_self envU1 5 [7, 1] [] clientA
    userU1 ⟨"tokA", ⟨"u1@example.com", "u1"⟩, rfl, by decide, rfl, rfl,
      rfl, rfl⟩ rfl
  refine ⟨(h.1 _).mpr ⟨by decide, by decide, rfl, rfl⟩, ?_, ?_, ?_⟩
  · intro hmem
    have := ((h.1 _).mp hmem).2.1
    simp [clientA] at this
  · exact (h.2 [7, 1] [("u1", 1)] authedA ⟨"u1", "u1@example.com", false⟩
      rfl _).mpr ⟨by decide, by decide, rfl, rfl⟩
  · intro hmem
    have := ((h.2 [7, 1] [("u1", 1)] authedA
      ⟨"u1", "u1@example.com", false⟩ rfl _).mp hmem).2.1
    simp [authedA] at this

/-- C9: room names `"<kind>:" + entityId` are injective over
(kind, entityId) pairs — the `project`/`task` prefixes never collide — and
an event emitted to project room `A` is received exactly by the sockets
that joined `project:A`: a socket joined only to `project:B` (`B ≠ A`) or
only to `task:A` receives nothing. -/
theorem room_isolation :
    (∀ k1 k2 a b, roomName k1 a = roomName k2 b → k1 = k2 ∧ a = b) ∧
    (∀ socks A t d,
      d ∈ emitTaskCreatedToProject socks A t ↔
        ∃ s, s ∈ socks ∧ roomName RoomKind.project A ∈ s.rooms ∧
          d = ⟨s.connId, "task.created", EventPayload.task t⟩) ∧
    (∀ A B t (s : SocketState), B ≠ A →
      s.rooms = [roomName RoomKind.project B] →
      emitTaskCreatedToProject [s] A t = []) ∧
    (∀ A t (s : SocketState), s.rooms = [roomName RoomKind.task A] →
      emitTaskCreatedToProject [s] A t = []) := by
  refine ⟨roomName_inj, ?_, ?_, ?_⟩
  · intro socks A t d
    exact mem_emitToRoom socks ("project:" ++ A) "task.created"
      (EventPayload.task t) d
  · intro A B t s hne hrooms
    have hf : decide (("project:" ++ A) ∈ s.rooms) = false := by
      rw [hrooms]
      simp only [roomName, List.mem_singleton, decide_eq_false_iff_not]
      intro h
      exact hne (string_append_left_cancel h).symm
    simp [emitTaskCreatedToProject, emitToRoom, List.filter, hf]
  · intro A t s hrooms
    have hf : decide (("project:" ++ A) ∈ s.rooms) = false := by
      rw [hrooms]
      simp only [roomName, List.mem_singleton, decide_eq_false_iff_not]
      exact project_room_ne_task_room A A
    simp [emitTaskCreatedToProject, emitToRoom, List.filter, hf]

/-- C9 witness: a `task.created` emitted to project room `A` reaches the
socket joined to `project:A` and misses sockets joined only to
`project:B` or only to `task:A`. -/
theorem room_isolation_witness :
    emitTaskCreatedToProject
      [⟨2, hsNone, none, [roomName RoomKind.project "B"]⟩] "A" t0 = [] ∧
    emitTaskCreatedToProject
      [⟨3, hsNone, none, [roomName RoomKind.task "A"]⟩] "A" t0 = [] ∧
    (⟨1, "task.created", EventPayload.task t0⟩ : Delivery) ∈
      emitTaskCreatedToProject
        [⟨1, hsNone, none, [roomName RoomKind.project "A"]⟩] "A" t0 :=
  ⟨room_isolation.2.2.1 "A" "B" t0 _ (by decide) rfl,
   room_isolation.2.2.2 "A" t0 _ rfl,
   (room_isolation.2.1 _ "A" t0 _).mpr
     ⟨⟨1, hsNone, none, [roomName RoomKind.project "A"]⟩,
      List.mem_singleton.mpr rfl, List.mem_singleton.mpr rfl, rfl⟩⟩

/-- C1 counterexample: `u1` authenticates on connection 1, then
re-authenticates on connection 2 (the index entry now maps `u1` to
connection 2), then the transport of connection 1 closes. `handleDisconnect`
deletes the entry without comparing it to the closing connection, so the
stale close evicts the entry of connection 2 and `isUserOnline "u1"` becomes
`false` — the claim says it must remain `true` with the entry unchanged. -/
theorem stale_close_evicts_cex :
    mapGet "u1"
      (handleConnection envU1 1 [1]
        (handleConnection envU1 0 [] [] clientA).registry
        clientB).registry = some 2 ∧
    isUserOnline
      (handleDisconnect envU1 [2]
        (handleConnection envU1 1 [1]
          (handleConnection envU1 0 [] [] clientA).registry
          clientB).registry
        (handleConnection envU1 0 [] [] clientA).client).registry
      "u1" = false :=
  ⟨rfl, rfl⟩

/-- C1 amended: deregistration of an authenticated socket removes that
index entry of that user unconditionally — `connectedUsers.delete(userId)` does
not compare the stored connection with the closing one — so after any
disconnect of a socket authenticated as `u`, the entry for `u` is gone
and `isUserOnline u` is `false`, even when the index pointed at a newer
connection. -/
theorem disconnect_deletes_unconditionally (env : Env) (conns : List Nat)
    (st : Registry) (client : SocketState) (u : Principal)
    (hu : client.user = some u) (hwf : RegistryWF st) :
    (handleDisconnect env conns st client).registry = mapDelete u.id st ∧
    isUserOnline (handleDisconnect env conns st client).registry
      u.id = false := by
  have hreg : (handleDisconnect env conns st client).registry =
      mapDelete u.id st := by
    simp only [handleDisconnect, hu]
    by_cases h : env.lastSeenOk <;> simp [h]
  refine ⟨hreg, ?_⟩
  rw [hreg]
  simp [isUserOnline, mapHas, mapGet_mapDelete_self u.id st hwf]

/-- C1 amended witness: with the index mapping `u1` to connection 2 and
the socket authenticated as `u1` on connection 1 closing, the entry is
evicted and `u1` reads as offline. -/
theorem disconnect_deletes_unconditionally_witness :
    (handleDisconnect envU1 [2] [("u1", 2)] authedA).registry = [] ∧
    isUserOnline (handleDisconnect envU1 [2] [("u1", 2)] authedA).registry
      "u1" = false :=
  disconnect_deletes_unconditionally envU1 [2] [("u1", 2)] authedA
    ⟨"u1", "u1@example.com", false⟩ rfl (by unfold RegistryWF; decide)

/-- C2 counterexample: with a valid token and a valid user but a rejecting
`updateLastSeen`, `handleConnection` lands in its catch: the socket is
disconnected and no `user.online` broadcast happens (the claim requires
the connection to survive and the broadcast to occur); on disconnect, the
rejection propagates before the `user.offline` broadcast, which is
likewise skipped. -/
theorem lastSeen_failure_cex :
    (handleConnection envU1Fail 0 [2] [] clientA).disconnected = true ∧
    (handleConnection envU1Fail 0 [2] [] clientA).deliveries = [] ∧
    (handleDisconnect envU1Fail [2] [("u1", 1)] authedA).deliveries = [] ∧
    (handleDisconnect envU1Fail [2] [("u1", 1)] authedA).completed
      = false :=
  ⟨rfl, rfl, rfl, rfl⟩

/-- C2 amended: a failed last-seen write is NOT swallowed. On an otherwise
successful connection it aborts the flow in the catch block: the
`user.online` broadcast is skipped and the socket is disconnected (the
registry entry inserted just before remains, and the principal is
attached). On deregistration the rejection propagates before the
`user.offline` broadcast, so no offline event is emitted (the index entry
was already deleted). -/
theorem lastSeen_failure_aborts (env : Env) (now : Nat) (conns : List Nat)
    (st : Registry) (client : SocketState) (user : UserDoc)
    (hacc : AuthAccepted env client.handshake user)
    (hfail : env.lastSeenOk = false) :
    handleConnection env now conns st client =
      ⟨mapSet user.id client.connId st,
       { client with user := some ⟨user.id, user.email, user.isAdmin⟩ },
       [], [], true⟩ ∧
    ∀ (conns2 : List Nat) (st2 : Registry) (c2 : SocketState)
      (u2 : Principal), c2.user = some u2 →
      handleDisconnect env conns2 st2 c2 =
        ⟨mapDelete u2.id st2, [], false⟩ := by
  obtain ⟨t, p, ht, htne, hv, hf, hact, hconf⟩ := hacc
  constructor
  · simp [handleConnection, ht, htne, hv, hf, hact, hconf, hfail]
  · intro conns2 st2 c2 u2 hu
    simp [handleDisconnect, hu, hfail]

/-- C2 amended witness: concrete run with rejecting `updateLastSeen`:
the connection ends disconnected with no broadcast but the registry entry
placed; the disconnect of an authenticated socket emits nothing and does
not complete. -/
theorem lastSeen_failure_aborts_witness :
    handleConnection envU1Fail 0 [2] [] clientA =
      ⟨[("u1", 1)], authedA, [], [], true⟩ ∧
    handleDisconnect envU1Fail [2] [("u1", 2)] authedA =
      ⟨[], [], false⟩ := by
  have h := lastSeen_failure_aborts envU1Fail 0 [2] [] clientA userU1
    ⟨"tokA", ⟨"u1@example.com", "u1"⟩, rfl, by decide, rfl, rfl, rfl, rfl⟩
    rfl
  exact ⟨h.1, h.2 [2] [("u1", 2)] authedA
    ⟨"u1", "u1@example.com", false⟩ rfl⟩

/-- C3 counterexample: a socket with NO principal attached issues
`join.project` with id `p1`: the join handler adds it to room
`project:p1` before the (throwing) log line runs — the claim says an
unauthenticated connection must be added to no room. Same for
`join.task`. -/
theorem unauth_join_cex :
    ("project:" ++ "p1") ∈
      (handleJoinProject ⟨5, hsNone, none, []⟩ "p1").1.rooms ∧
    (handleJoinProject ⟨5, hsNone, none, []⟩ "p1").2 = false ∧
    ("task:" ++ "t1") ∈
      (handleJoinTask ⟨5, hsNone, none, []⟩ "t1").1.rooms := by
  refine ⟨?_, rfl, ?_⟩ <;>
    simp [handleJoinProject, handleJoinTask, roomJoin]

/-- C3 amended: the join handlers perform no principal check: any socket
— including an unauthenticated one — that issues `join.project` /
`join.task` is added to the corresponding room; only afterwards does the
logging in the handler dereference the missing principal and throw (recorded
here as the completion flag of the handler being `false`). -/
theorem join_without_principal_check (client : SocketState)
    (pid tid : String) (hu : client.user = none) :
    (handleJoinProject client pid).1.rooms =
      roomJoin client.rooms ("project:" ++ pid) ∧
    ("project:" ++ pid) ∈ (handleJoinProject client pid).1.rooms ∧
    (handleJoinProject client pid).2 = false ∧
    (handleJoinTask client tid).1.rooms =
      roomJoin client.rooms ("task:" ++ tid) ∧
    ("task:" ++ tid) ∈ (handleJoinTask client tid).1.rooms ∧
    (handleJoinTask client tid).2 = false := by
  refine ⟨rfl, mem_roomJoin_self _ _, ?_, rfl, mem_roomJoin_self _ _, ?_⟩ <;>
    simp [handleJoinProject, handleJoinTask, hu]

/-- C3 amended witness: the concrete unauthenticated socket 5 ends up in
`project:p1` (and in `task:t1`), with the handler body failing only after
the join. -/
theorem join_without_principal_check_witness :
    ("project:" ++ "p1") ∈
      (handleJoinProject ⟨5, hsNone, none, []⟩ "p1").1.rooms ∧
    (handleJoinProject ⟨5, hsNone, none, []⟩ "p1").2 = false ∧
    ("task:" ++ "t1") ∈
      (handleJoinTask ⟨5, hsNone, none, []⟩ "t1").1.rooms ∧
    (handleJoinTask ⟨5, hsNone, none, []⟩ "t1").2 = false := by
  have h := join_without_principal_check ⟨5, hsNone, none, []⟩ "p1" "t1" rfl
  exact ⟨h.2.1, h.2.2.1, h.2.2.2.2.1, h.2.2.2.2.2⟩

/-- C4 counterexample: with the shared bus unreachable at startup, boot
completes successfully — the adapter is installed and the only trace of
the problem is the error log of the factory; no failure is propagated to abort
boot (the claim requires initialization to fail fatally). -/
theorem backbone_boot_cex :
    bootGateway ⟨"localhost", 6379, none⟩ false =
      Except.ok
        (⟨⟨⟨"localhost", 6379, none⟩, false⟩,
          ⟨⟨"localhost", 6379, none⟩, false⟩, true⟩,
         [RedisLog.connecting,
          RedisLog.connectionError "connect ECONNREFUSED"]) :=
  rfl

/-- C4 amended: backbone-adapter initialization never fails: whatever the
bus reachability, the `REDIS_CLIENT` factory returns a client (connection
errors are only logged by its error listener) and `afterInit`
installs the adapter without any connectivity check — boot always
completes, silently degraded when the bus is unreachable. -/
theorem backbone_boot_never_fails (cfg : RedisConfig) :
    bootGateway cfg true =
      Except.ok (⟨⟨cfg, true⟩, ⟨cfg, true⟩, true⟩,
        [RedisLog.connecting, RedisLog.ready]) ∧
    bootGateway cfg false =
      Except.ok (⟨⟨cfg, false⟩, ⟨cfg, false⟩, true⟩,
        [RedisLog.connecting,
         RedisLog.connectionError "connect ECONNREFUSED"]) :=
  ⟨rfl, rfl⟩

/-- C6 counterexample: with BOTH fields present — `auth.token` the empty
string and the header `"Bearer abc"` — the extracted credential is
`"abc"`, taken from the header: the dedicated auth field does not take
priority when it holds the (falsy) empty string. -/
theorem token_priority_cex :
    authTokenOf ⟨some (JsVal.str ""), some (JsVal.str "Bearer abc")⟩ =
      some "" ∧
    extractToken ⟨some (JsVal.str ""), some (JsVal.str "Bearer abc")⟩ =
      some "abc" :=
  ⟨rfl, rfl⟩

/-- C6 amended: the dedicated `auth.token` string takes priority exactly
when it is non-empty; an absent OR empty-string `auth.token` falls back
to the `authorization` header, from which the first occurrence of
`"Bearer "` is removed (in particular a `"Bearer "` prefix is stripped
exactly). -/
theorem extractToken_spec (h : Handshake) :
    (∀ s, authTokenOf h = some s → s ≠ "" → extractToken h = some s) ∧
    (authTokenOf h = some "" → extractToken h = headerTokenOf h) ∧
    (authTokenOf h = none → extractToken h = headerTokenOf h) ∧
    (∀ a, h.authorization = some (JsVal.str a) →
      headerTokenOf h = some (removeFirstOcc "Bearer " a)) ∧
    (∀ rest, removeFirstOcc "Bearer " ("Bearer " ++ rest) = rest) := by
  refine ⟨?_, ?_, ?_, ?_, removeFirstOcc_bearer_strip⟩
  · intro s hs hne
    simp [extractToken, jsOrString, hs, hne]
  · intro hs
    simp [extractToken, jsOrString, hs]
  · intro hs
    simp [extractToken, jsOrString, hs]
  · intro a ha
    simp [headerTokenOf, ha]

/-- C6 amended witness: a non-empty `auth.token` wins over a present
header; a header-only handshake yields the header value with its
`"Bearer "` prefix stripped. -/
theorem extractToken_spec_witness :
    extractToken ⟨some (JsVal.str "tokA"),
      some (JsVal.str "Bearer abc")⟩ = some "tokA" ∧
    headerTokenOf ⟨some (JsVal.str "tokA"),
      some (JsVal.str "Bearer abc")⟩ = some "abc" ∧
    removeFirstOcc "Bearer " ("Bearer " ++ "xyz") = "xyz" :=
  ⟨(extractToken_spec ⟨some (JsVal.str "tokA"),
      some (JsVal.str "Bearer abc")⟩).1 "tokA" rfl (by decide),
   (extractToken_spec ⟨some (JsVal.str "tokA"),
      some (JsVal.str "Bearer abc")⟩).2.2.2.1 "Bearer abc" rfl,
   (extractToken_spec hsNone).2.2.2.2 "xyz"⟩

end TaskMgmt
